import Mathlib

/-!
Verification development for the IN1K/MOP benchmarking driver
(`tutorial/benchmark_in1kmop.py`).

The Python script couples an external benchmark (`evoxbench.test_suites.in1kmop`)
to external evolutionary optimizers (pymoo).  We shallowly embed the script:
the external collaborators become an `ExternalWorld` of abstract functions, the
script's own control flow (settings resolution, algorithm dispatch, the
problem-id x run loop, result accumulation, JSON dumping) is translated
directly.  Machine floats of the original are modelled as exact rationals.
The driver additionally produces an event trace recording object
constructions, evaluation calls (with their `true_eval` flag) and file writes,
so that ordering and frame properties of the script can be stated.
-/

namespace In1KMOP

/-- Errors of the script.  Both correspond to `raise NotImplementedError` in the
source; they are distinguished by the raise site, named as in the spec. -/
inductive DriverError
  | unsupportedObjectiveCount
  | unsupportedAlgorithm
deriving DecidableEq

/-- Modelled from the spec: the external pymoo reference-direction generator
`get_reference_directions("das-dennis", n, n_partitions=p)` enumerates the
uniform simplex lattice: all length-`n` tuples of naturals summing to `p`
(each then divided by `p`).  Only the lattice itself is modelled; the driver
uses the directions opaquely and only their number matters downstream. -/
def simplexLattice : Nat → Nat → List (List Nat)
  | 0, 0 => [[]]
  | 0, _ + 1 => []
  | n + 1, p => (List.range (p + 1)).flatMap (fun i => (simplexLattice n (p - i)).map (fun v => i :: v))

/-- Modelled from the spec: das-dennis reference directions (simplex lattice
points scaled to the unit simplex). -/
def referenceDirections (nObjCount partitions : Nat) : List (List Rat) :=
  (simplexLattice nObjCount partitions).map (fun v => v.map (fun k => (k : Rat) / (partitions : Rat)))

/-- Embeds `get_benchmark_settings`: fixed generation budget 100; reference
directions per objective count (2 -> 99 partitions, 3 -> 13, 4 -> 7);
population size is the number of reference directions; any other objective
count raises (spec name: `UnsupportedObjectiveCount`). -/
def getBenchmarkSettings (nObjCount : Nat) : Except DriverError (Nat × Nat × List (List Rat)) :=
  let nGen := 100
  if nObjCount = 2 then
    let rd := referenceDirections 2 99
    .ok (rd.length, nGen, rd)
  else if nObjCount = 3 then
    let rd := referenceDirections 3 13
    .ok (rd.length, nGen, rd)
  else if nObjCount = 4 then
    let rd := referenceDirections 4 7
    .ok (rd.length, nGen, rd)
  else
    .error .unsupportedObjectiveCount

/-- Embeds the operator triple returned by `get_genetic_operator`: the
sampling / crossover / mutation objects carry these numeric parameters
(integer random sampling and rounding repair are fixed structure of the
source and not recorded as data). -/
structure OperatorConfig where
  crxProb : Rat
  crxEta : Rat
  mutProb : Rat
  mutEta : Rat
deriving DecidableEq

def getGeneticOperator (crxProb crxEta mutProb mutEta : Rat) : OperatorConfig :=
  { crxProb := crxProb, crxEta := crxEta, mutProb := mutProb, mutEta := mutEta }

inductive AlgoKind
  | nsga2Kind
  | moeadKind
  | nsga3Kind
deriving DecidableEq

/-- The configured optimizer handle as visible from the script: which pymoo
class was instantiated and with which constructor arguments. -/
structure Algorithm where
  kind : AlgoKind
  popSize : Option Nat
  refDirs : Option (List (List Rat))
  ops : OperatorConfig
  eliminateDuplicates : Bool
  nNeighbors : Option Nat
  probNeighborMating : Option Rat
deriving DecidableEq

/-- Embeds `nsga2(...)`: `NSGA2(pop_size=..., ..., eliminate_duplicates=True)`. -/
def nsga2Algorithm (popSize : Nat) (crxProb crxEta mutProb mutEta : Rat) : Algorithm :=
  { kind := .nsga2Kind, popSize := some popSize, refDirs := none,
    ops := getGeneticOperator crxProb crxEta mutProb mutEta,
    eliminateDuplicates := true, nNeighbors := none, probNeighborMating := none }

/-- Embeds `moead(...)`: `MOEAD(ref_dirs=..., n_neighbors=..., prob_neighbor_mating=..., ...)`.
The external MOEAD class performs no duplicate elimination (no such argument is
passed and the class has none), recorded as `eliminateDuplicates := false`. -/
def moeadAlgorithm (refDirs : List (List Rat)) (crxProb crxEta mutProb mutEta : Rat)
    (neighborhoodSize : Nat) (probNeighborMating : Rat) : Algorithm :=
  { kind := .moeadKind, popSize := none, refDirs := some refDirs,
    ops := getGeneticOperator crxProb crxEta mutProb mutEta,
    eliminateDuplicates := false, nNeighbors := some neighborhoodSize,
    probNeighborMating := some probNeighborMating }

/-- Embeds `nsga3(...)`: `NSGA3(pop_size=..., ref_dirs=..., ..., eliminate_duplicates=True)`. -/
def nsga3Algorithm (popSize : Nat) (refDirs : List (List Rat))
    (crxProb crxEta mutProb mutEta : Rat) : Algorithm :=
  { kind := .nsga3Kind, popSize := some popSize, refDirs := some refDirs,
    ops := getGeneticOperator crxProb crxEta mutProb mutEta,
    eliminateDuplicates := true, nNeighbors := none, probNeighborMating := none }

/-- `nsga2(pop_size)` with the Python default keyword arguments. -/
def nsga2Default (popSize : Nat) : Algorithm :=
  nsga2Algorithm popSize 1 30 (9/10) 20

/-- `moead(ref_dirs)` with the Python default keyword arguments. -/
def moeadDefault (refDirs : List (List Rat)) : Algorithm :=
  moeadAlgorithm refDirs 1 20 (9/10) 20 20 (9/10)

/-- `nsga3(pop_size, ref_dirs)` with the Python default keyword arguments. -/
def nsga3Default (popSize : Nat) (refDirs : List (List Rat)) : Algorithm :=
  nsga3Algorithm popSize refDirs 1 30 (9/10) 20

/-- Embeds the `if args.moea == ...` dispatch of `__main__`: three known family
names, anything else raises (spec name: `UnsupportedAlgorithm`). -/
def buildAlgorithm (moea : String) (popSize : Nat) (refDirs : List (List Rat)) :
    Except DriverError Algorithm :=
  if moea = ("nsga2") then .ok (nsga2Default popSize)
  else if moea = ("moead") then .ok (moeadDefault refDirs)
  else if moea = ("nsga3") then .ok (nsga3Default popSize refDirs)
  else .error .unsupportedAlgorithm

/-- The external collaborators of the script, abstracted: per problem id the
benchmark's metadata (`in1kmop(pid)`), its evaluation and indicator functions,
and the behavior of the external optimizer run (`minimize`): which candidate
batches the search loop asks the problem to evaluate and which final candidate
set `res.X` it returns. -/
structure ExternalWorld where
  nVar : Nat → Nat
  nObj : Nat → Nat
  lb : Nat → List Int
  ub : Nat → List Int
  searchQueries : Nat → Nat → List (List (List Int))
  resX : Nat → Nat → List (List Int)
  benchEval : Nat → List (List Int) → Bool → List (List Rat)
  benchHV : Nat → List (List Int) → Rat

/-- The problem object built by `In1KMOPProblem.__init__` from the benchmark:
dimensionality, objective count, bounds. -/
structure ProblemInst where
  nVar : Nat
  nObj : Nat
  xl : List Int
  xu : List Int

def mkProblem (ext : ExternalWorld) (pid : Nat) : ProblemInst :=
  { nVar := ext.nVar pid, nObj := ext.nObj pid, xl := ext.lb pid, xu := ext.ub pid }

/-- One per-run record (`run_stats = {'run': r, 'F': F, 'HV': hv}`). -/
structure RunStats where
  run : Nat
  F : List (List Rat)
  HV : Rat
deriving DecidableEq

/-- Observable events of the script, in program order. -/
inductive Event
  | problemConstructed (pid r : Nat)
  | settingsResolved (pid r : Nat)
  | optimizerBuilt (pid r : Nat)
  | evalCall (pid : Nat) (trueEval : Bool)
  | fileWritten (pid : Nat) (content : List RunStats)
deriving DecidableEq

/-- Embeds `In1KMOPProblem._evaluate`: forwards the batch to
`benchmark.evaluate(x, true_eval=True)` — the flag is hardcoded `True` in the
source — and records the evaluation call event. -/
def problemEvaluate (ext : ExternalWorld) (pid : Nat) (x : List (List Int)) :
    List (List Rat) × Event :=
  (ext.benchEval pid x true, .evalCall pid true)

/-- Embeds the body of the inner `for r` loop of `__main__` for one
`(pid, r)` pair, up to appending `run_stats`: construct benchmark and problem,
resolve settings, dispatch the algorithm, run `minimize` (the external search
loop evaluates its query batches through `problemEvaluate`), then evaluate
`res.X` authoritatively and compute the hypervolume indicator.
Returns the events emitted and either the run record or the raised error. -/
def runOne (ext : ExternalWorld) (moea : String) (pid r : Nat) :
    List Event × Except DriverError RunStats :=
  let ev0 : List Event := [.problemConstructed pid r]
  match getBenchmarkSettings (mkProblem ext pid).nObj with
  | .error e => (ev0, .error e)
  | .ok (popSize, _nGen, rd) =>
    let ev1 := ev0 ++ [.settingsResolved pid r]
    match buildAlgorithm moea popSize rd with
    | .error e => (ev1, .error e)
    | .ok _algorithm =>
      let ev2 := ev1 ++ [.optimizerBuilt pid r]
      let searchEvs := (ext.searchQueries pid r).map (fun batch => (problemEvaluate ext pid batch).2)
      let X := ext.resX pid r
      let F := ext.benchEval pid X true
      let hv := ext.benchHV pid X
      (ev2 ++ searchEvs ++ [.evalCall pid true], .ok { run := r, F := F, HV := hv })

/-- `range(1, runs+1)` of the inner loop. -/
def runsFor (runs : Nat) : List Nat := List.range' 1 runs

/-- `range(1, 10)` of the outer loop. -/
def pidsList : List Nat := List.range' 1 9

/-- Result of the whole script: the final accumulator `experiment_stats`, the
event trace, and the uncaught error if one was raised. -/
structure DriverResult where
  stats : List RunStats
  events : List Event
  error : Option DriverError
deriving DecidableEq

/-- The inner `for r in range(1, args.runs+1)` loop: threads the (global)
accumulator `experiment_stats`, appending each run record; an exception
aborts immediately. -/
def runsLoop (ext : ExternalWorld) (moea : String) (pid : Nat) :
    List Nat → List RunStats → List Event → DriverResult
  | [], stats, evs => ⟨stats, evs, none⟩
  | r :: rest, stats, evs =>
    match runOne ext moea pid r with
    | (ev1, .error e) => ⟨stats, evs ++ ev1, some e⟩
    | (ev1, .ok rs) => runsLoop ext moea pid rest (stats ++ [rs]) (evs ++ ev1)

/-- The outer `for pid in range(1, 10)` loop.  After the inner loop for a
problem id finishes, the CURRENT accumulator — which is global and never
reset in the source — is dumped to that problem id's file. -/
def pidsLoop (ext : ExternalWorld) (moea : String) (runs : Nat) :
    List Nat → List RunStats → List Event → DriverResult
  | [], stats, evs => ⟨stats, evs, none⟩
  | pid :: rest, stats, evs =>
    match runsLoop ext moea pid (runsFor runs) stats evs with
    | ⟨stats2, evs2, some e⟩ => ⟨stats2, evs2, some e⟩
    | ⟨stats2, evs2, none⟩ => pidsLoop ext moea runs rest stats2 (evs2 ++ [.fileWritten pid stats2])

/-- Embeds `__main__`: the full run matrix with the global `experiment_stats`
accumulator starting empty. -/
def driverMain (ext : ExternalWorld) (moea : String) (runs : Nat) : DriverResult :=
  pidsLoop ext moea runs pidsList [] []

/-- All contents successively written to problem id `pid`'s report file. -/
def fileContents (evs : List Event) (pid : Nat) : List (List RunStats) :=
  evs.filterMap (fun e => match e with
    | .fileWritten p c => if p = pid then some c else none
    | _ => none)

/-- The requested family is one of the three the dispatch knows. -/
def KnownMoea (moea : String) : Prop :=
  moea = ("nsga2") ∨ moea = ("moead") ∨ moea = ("nsga3")

/-- The objective count is one the settings resolver supports. -/
def GoodObj (n : Nat) : Prop := n = 2 ∨ n = 3 ∨ n = 4

/-- Events emitted by one successful `(pid, r)` iteration. -/
def goodRunEvents (ext : ExternalWorld) (pid r : Nat) : List Event :=
  [.problemConstructed pid r, .settingsResolved pid r, .optimizerBuilt pid r]
  ++ (ext.searchQueries pid r).map (fun batch => (problemEvaluate ext pid batch).2)
  ++ [.evalCall pid true]

/-- The run record of one successful `(pid, r)` iteration. -/
def goodRunStats (ext : ExternalWorld) (pid r : Nat) : RunStats :=
  { run := r, F := ext.benchEval pid (ext.resX pid r) true,
    HV := ext.benchHV pid (ext.resX pid r) }

/-- The run records one problem id's inner loop appends. -/
def goodPidStats (ext : ExternalWorld) (runs pid : Nat) : List RunStats :=
  (runsFor runs).map (goodRunStats ext pid)

/-- Closed form of the accumulator after processing a list of problem ids. -/
def goodStatsFrom (ext : ExternalWorld) (runs : Nat) : List Nat → List RunStats → List RunStats
  | [], stats => stats
  | pid :: rest, stats => goodStatsFrom ext runs rest (stats ++ goodPidStats ext runs pid)

/-- Closed form of the events emitted while processing a list of problem ids,
given the accumulator contents on entry. -/
def goodEventsFrom (ext : ExternalWorld) (runs : Nat) : List Nat → List RunStats → List Event
  | [], _ => []
  | pid :: rest, stats =>
    (runsFor runs).flatMap (goodRunEvents ext pid)
    ++ [.fileWritten pid (stats ++ goodPidStats ext runs pid)]
    ++ goodEventsFrom ext runs rest (stats ++ goodPidStats ext runs pid)

/-- Number of occurrences of an event in a trace. -/
def countE (e : Event) : List Event → Nat
  | [] => 0
  | x :: xs => (if x = e then 1 else 0) + countE e xs

/-- Number of occurrences of a natural in a list. -/
def countN (r : Nat) : List Nat → Nat
  | [] => 0
  | x :: xs => (if x = r then 1 else 0) + countN r xs

/-- `true` unless the event is an evaluation call with the authoritative flag
off. -/
def flagOk : Event → Bool
  | .evalCall _ b => b
  | _ => true

/-- Recognizes a problem-instantiation event for a given problem id (any run). -/
def isProblemFor (pid : Nat) : Event → Bool
  | .problemConstructed p _ => p = pid
  | _ => false

/-- Recognizes a settings-resolution event for a given problem id (any run). -/
def isSettingsFor (pid : Nat) : Event → Bool
  | .settingsResolved p _ => p = pid
  | _ => false

/-- A concrete external world used to evaluate the driver: every benchmark has
2 objectives and 5 integer variables in [0,9]; the optimizer issues no
surrogate-visible queries and returns a single final candidate; evaluation
tags each objective row with the problem id, so provenance of report entries
is visible; the indicator is 0. -/
def extA : ExternalWorld :=
  { nVar := fun _ => 5, nObj := fun _ => 2,
    lb := fun _ => [0, 0, 0, 0, 0], ub := fun _ => [9, 9, 9, 9, 9],
    searchQueries := fun _ _ => [],
    resX := fun _ _ => [[0, 0, 0, 0, 0]],
    benchEval := fun pid x _ => x.map (fun _ => [(pid : Rat), 0]),
    benchHV := fun _ _ => 0 }

/-- Like `extA` but every benchmark reports 5 objectives (unsupported). -/
def extB : ExternalWorld :=
  { nVar := fun _ => 5, nObj := fun _ => 5,
    lb := fun _ => [0, 0, 0, 0, 0], ub := fun _ => [9, 9, 9, 9, 9],
    searchQueries := fun _ _ => [],
    resX := fun _ _ => [[0, 0, 0, 0, 0]],
    benchEval := fun pid x _ => x.map (fun _ => [(pid : Rat), 0]),
    benchHV := fun _ _ => 0 }

/-- Structured JSON values as produced by `json.dump` with `NumpyEncoder`
(only numbers, arrays and objects occur for this report shape; numbers are
modelled exactly). -/
inductive JsonVal
  | num (q : Rat)
  | arr (elems : List JsonVal)
  | obj (fields : List (String × JsonVal))

/-- `NumpyEncoder` turns an objective matrix (ndarray) into nested lists. -/
def encodeMatrix (m : List (List Rat)) : JsonVal :=
  .arr (m.map (fun row => .arr (row.map .num)))

/-- Serialization of one `run_stats` record, key order as inserted. -/
def encodeRunStats (rs : RunStats) : JsonVal :=
  .obj [(("run"), .num (rs.run : Rat)), (("F"), encodeMatrix rs.F), (("HV"), .num rs.HV)]

/-- Serialization of the report handed to `json.dump`. -/
def encodeReport (report : List RunStats) : JsonVal :=
  .arr (report.map encodeRunStats)

/-- Decode each element of a JSON array, failing if any element fails. -/
def decodeListWith {α : Type} (f : JsonVal → Option α) : List JsonVal → Option (List α)
  | [] => some []
  | x :: xs =>
    match f x with
    | none => none
    | some a =>
      match decodeListWith f xs with
      | none => none
      | some as => some (a :: as)

def decodeRat : JsonVal → Option Rat
  | .num q => some q
  | _ => none

def decodeRow : JsonVal → Option (List Rat)
  | .arr es => decodeListWith decodeRat es
  | _ => none

def decodeMatrix : JsonVal → Option (List (List Rat))
  | .arr rows => decodeListWith decodeRow rows
  | _ => none

def decodeRunStats : JsonVal → Option RunStats
  | .obj [((("run")), .num q), ((("F")), fjson), ((("HV")), .num hv)] =>
    if q.den = 1 ∧ 0 ≤ q.num then
      match decodeMatrix fjson with
      | none => none
      | some F => some { run := q.num.toNat, F := F, HV := hv }
    else none
  | _ => none

/-- Re-loading of a persisted report. -/
def decodeReport : JsonVal → Option (List RunStats)
  | .arr es => decodeListWith decodeRunStats es
  | _ => none


/-! ### Helper lemmas about the driver trace -/

theorem runOne_eq_good (ext : ExternalWorld) (moea : String) (pid r : Nat)
    (hm : KnownMoea moea) (ho : GoodObj (ext.nObj pid)) :
    runOne ext moea pid r = (goodRunEvents ext pid r, .ok (goodRunStats ext pid r)) := by
  have hobj : (mkProblem ext pid).nObj = ext.nObj pid := rfl
  rcases ho with h | h | h <;> rcases hm with hm | hm | hm <;> subst hm <;>
    (unfold runOne; rw [hobj, h]; rfl)

theorem runsLoop_good (ext : ExternalWorld) (moea : String) (pid : Nat)
    (hm : KnownMoea moea) (ho : GoodObj (ext.nObj pid)) :
    ∀ (rl : List Nat) (stats : List RunStats) (evs : List Event),
      runsLoop ext moea pid rl stats evs =
        ⟨stats ++ rl.map (goodRunStats ext pid), evs ++ rl.flatMap (goodRunEvents ext pid), none⟩ := by
  intro rl
  induction rl with
  | nil => intro stats evs; simp [runsLoop]
  | cons r0 rest ih =>
    intro stats evs
    simp only [runsLoop]
    rw [runOne_eq_good ext moea pid r0 hm ho]
    dsimp only
    rw [ih]
    simp [List.append_assoc]

theorem pidsLoop_good (ext : ExternalWorld) (moea : String) (runs : Nat)
    (hm : KnownMoea moea) :
    ∀ (pl : List Nat), (∀ p ∈ pl, GoodObj (ext.nObj p)) →
      ∀ (stats : List RunStats) (evs : List Event),
        pidsLoop ext moea runs pl stats evs =
          ⟨goodStatsFrom ext runs pl stats, evs ++ goodEventsFrom ext runs pl stats, none⟩ := by
  intro pl
  induction pl with
  | nil => intro _ stats evs; simp [pidsLoop, goodStatsFrom, goodEventsFrom]
  | cons pid rest ih =>
    intro hall stats evs
    have hpid : GoodObj (ext.nObj pid) := hall pid (by simp)
    simp only [pidsLoop]
    rw [runsLoop_good ext moea pid hm hpid]
    dsimp only
    rw [ih (fun p hp => hall p (by simp [hp]))]
    simp [goodStatsFrom, goodEventsFrom, goodPidStats, List.append_assoc]

theorem driverMain_good (ext : ExternalWorld) (moea : String) (runs : Nat)
    (hm : KnownMoea moea) (ho : ∀ p ∈ pidsList, GoodObj (ext.nObj p)) :
    driverMain ext moea runs =
      ⟨goodStatsFrom ext runs pidsList [], goodEventsFrom ext runs pidsList [], none⟩ := by
  unfold driverMain
  rw [pidsLoop_good ext moea runs hm pidsList ho [] []]
  simp

theorem goodStatsFrom_eq (ext : ExternalWorld) (runs : Nat) :
    ∀ (pl : List Nat) (stats : List RunStats),
      goodStatsFrom ext runs pl stats = stats ++ pl.flatMap (goodPidStats ext runs) := by
  intro pl
  induction pl with
  | nil => intro stats; simp [goodStatsFrom]
  | cons pid rest ih => intro stats; simp [goodStatsFrom, ih, List.append_assoc]

theorem countE_append (e : Event) (l1 l2 : List Event) :
    countE e (l1 ++ l2) = countE e l1 + countE e l2 := by
  induction l1 with
  | nil => simp [countE]
  | cons x xs ih => simp [countE, ih, Nat.add_assoc]

theorem countE_replicate (e c : Event) (n : Nat) :
    countE e (List.replicate n c) = if c = e then n else 0 := by
  induction n with
  | zero => simp [countE]
  | succ k ih =>
    by_cases h : c = e
    · subst h
      simp [List.replicate, countE, ih, Nat.add_comm]
    · simp [List.replicate, countE, ih, h]

theorem countE_map_const {α : Type} (e c : Event) (l : List α) :
    countE e (l.map (fun _ => c)) = if c = e then l.length else 0 := by
  have hm : l.map (fun _ => c) = List.replicate l.length c := by
    simp [List.map_const]
  rw [hm]
  exact countE_replicate e c l.length

theorem countE_good_pc (ext : ExternalWorld) (pid' r' pid r : Nat) :
    countE (.problemConstructed pid r) (goodRunEvents ext pid' r') =
      if pid' = pid ∧ r' = r then 1 else 0 := by
  unfold goodRunEvents
  rw [countE_append, countE_append]
  simp only [problemEvaluate]
  rw [countE_map_const]
  by_cases hp : pid' = pid <;> by_cases hr : r' = r <;> simp [countE, hp, hr]

theorem countE_good_sr (ext : ExternalWorld) (pid' r' pid r : Nat) :
    countE (.settingsResolved pid r) (goodRunEvents ext pid' r') =
      if pid' = pid ∧ r' = r then 1 else 0 := by
  unfold goodRunEvents
  rw [countE_append, countE_append]
  simp only [problemEvaluate]
  rw [countE_map_const]
  by_cases hp : pid' = pid <;> by_cases hr : r' = r <;> simp [countE, hp, hr]

theorem countE_good_ob (ext : ExternalWorld) (pid' r' pid r : Nat) :
    countE (.optimizerBuilt pid r) (goodRunEvents ext pid' r') =
      if pid' = pid ∧ r' = r then 1 else 0 := by
  unfold goodRunEvents
  rw [countE_append, countE_append]
  simp only [problemEvaluate]
  rw [countE_map_const]
  by_cases hp : pid' = pid <;> by_cases hr : r' = r <;> simp [countE, hp, hr]

theorem countE_runsList (ext : ExternalWorld) (e : Event) (pid' pid r : Nat)
    (hgre : ∀ r', countE e (goodRunEvents ext pid' r') = if pid' = pid ∧ r' = r then 1 else 0) :
    ∀ rl : List Nat, countE e (rl.flatMap (goodRunEvents ext pid')) =
      if pid' = pid then countN r rl else 0 := by
  intro rl
  induction rl with
  | nil => simp [countE, countN]
  | cons a as ih =>
    rw [List.flatMap_cons, countE_append, hgre a, ih]
    by_cases hp : pid' = pid <;> by_cases ha : a = r <;> simp [countN, hp, ha]

theorem countE_goodEventsFrom (ext : ExternalWorld) (runs : Nat) (e : Event) (pid r : Nat)
    (hgre : ∀ pid' r', countE e (goodRunEvents ext pid' r') = if pid' = pid ∧ r' = r then 1 else 0)
    (hfw : ∀ p c, (Event.fileWritten p c) ≠ e) :
    ∀ (pl : List Nat) (stats : List RunStats),
      countE e (goodEventsFrom ext runs pl stats) = countN pid pl * countN r (runsFor runs) := by
  intro pl
  induction pl with
  | nil => intro stats; simp [goodEventsFrom, countE, countN]
  | cons p rest ih =>
    intro stats
    simp only [goodEventsFrom]
    rw [countE_append, countE_append]
    rw [countE_runsList ext e p pid r (fun r' => hgre p r')]
    have hz : countE e [Event.fileWritten p (stats ++ goodPidStats ext runs p)] = 0 := by
      simp [countE, hfw]
    rw [hz, ih]
    by_cases hp : p = pid
    · subst hp
      simp [countN, Nat.add_mul]
    · simp [countN, hp]

theorem countN_range'_zero (r : Nat) : ∀ (n s : Nat), r < s → countN r (List.range' s n) = 0 := by
  intro n
  induction n with
  | zero => intro s _; simp [countN]
  | succ k ih =>
    intro s h
    have hr : List.range' s (k + 1) = s :: List.range' (s + 1) k := rfl
    rw [hr]
    have hne : ¬ s = r := by omega
    simp [countN, hne, ih (s + 1) (by omega)]

theorem countN_range'_one : ∀ (n s r : Nat), s ≤ r → r < s + n → countN r (List.range' s n) = 1 := by
  intro n
  induction n with
  | zero => intro s r h1 h2; omega
  | succ k ih =>
    intro s r h1 h2
    have hr : List.range' s (k + 1) = s :: List.range' (s + 1) k := rfl
    rw [hr]
    by_cases h : s = r
    · subst h
      simp [countN, countN_range'_zero s k (s + 1) (by omega)]
    · simp [countN, h, ih (s + 1) r (by omega) (by omega)]

theorem all_append_ok (p : Event → Bool) (l1 l2 : List Event)
    (h1 : l1.all p = true) (h2 : l2.all p = true) : (l1 ++ l2).all p = true := by
  simp [List.all_append, h1, h2]

theorem flags_runOne (ext : ExternalWorld) (moea : String) (pid r : Nat) :
    ((runOne ext moea pid r).1).all flagOk = true := by
  unfold runOne
  split
  · simp [flagOk]
  · split
    · simp [flagOk]
    · simp only []
      refine all_append_ok _ _ _ (all_append_ok _ _ _ ?_ ?_) ?_
      · simp [flagOk]
      · simp only [problemEvaluate, List.all_eq_true]
        intro x hx
        rcases List.mem_map.mp hx with ⟨b, _, rfl⟩
        rfl
      · simp [flagOk]

theorem flags_runsLoop (ext : ExternalWorld) (moea : String) (pid : Nat) :
    ∀ (rl : List Nat) (stats : List RunStats) (evs : List Event),
      evs.all flagOk = true → ((runsLoop ext moea pid rl stats evs).events).all flagOk = true := by
  intro rl
  induction rl with
  | nil => intro stats evs h; simpa [runsLoop] using h
  | cons a as ih =>
    intro stats evs h
    simp only [runsLoop]
    rcases hro : runOne ext moea pid a with ⟨ev1, out⟩
    have hev1 : ev1.all flagOk = true := by
      have hall := flags_runOne ext moea pid a
      rw [hro] at hall
      exact hall
    cases out with
    | error e => simpa using all_append_ok _ _ _ h hev1
    | ok rs => exact ih _ _ (all_append_ok _ _ _ h hev1)

theorem flags_pidsLoop (ext : ExternalWorld) (moea : String) (runs : Nat) :
    ∀ (pl : List Nat) (stats : List RunStats) (evs : List Event),
      evs.all flagOk = true → ((pidsLoop ext moea runs pl stats evs).events).all flagOk = true := by
  intro pl
  induction pl with
  | nil => intro stats evs h; simpa [pidsLoop] using h
  | cons pid rest ih =>
    intro stats evs h
    simp only [pidsLoop]
    rcases hrl : runsLoop ext moea pid (runsFor runs) stats evs with ⟨stats2, evs2, err⟩
    have hev2 : evs2.all flagOk = true := by
      have hall := flags_runsLoop ext moea pid (runsFor runs) stats evs h
      rw [hrl] at hall
      exact hall
    cases err with
    | none =>
      refine ih stats2 _ ?_
      refine all_append_ok _ _ _ hev2 ?_
      simp [flagOk]
    | some e => simpa using hev2

theorem decodeListWith_map {α : Type} (f : JsonVal → Option α) (g : α → JsonVal)
    (h : ∀ x, f (g x) = some x) :
    ∀ l : List α, decodeListWith f (l.map g) = some l := by
  intro l
  induction l with
  | nil => rfl
  | cons x xs ih => simp [decodeListWith, h x, ih]

theorem decodeRow_encode (row : List Rat) :
    decodeRow (.arr (row.map .num)) = some row :=
  decodeListWith_map decodeRat JsonVal.num (fun _ => rfl) row

theorem decodeMatrix_encode (m : List (List Rat)) :
    decodeMatrix (encodeMatrix m) = some m :=
  decodeListWith_map decodeRow (fun row => .arr (row.map .num)) decodeRow_encode m

theorem decodeRunStats_encode (rs : RunStats) :
    decodeRunStats (encodeRunStats rs) = some rs := by
  have hden : ((rs.run : Rat)).den = 1 := Rat.den_natCast rs.run
  have hnum : (0 : Int) ≤ (rs.run : Rat).num := by
    rw [Rat.num_natCast]
    exact Int.natCast_nonneg rs.run
  simp [decodeRunStats, encodeRunStats, hden, hnum, decodeMatrix_encode rs.F,
    Rat.num_natCast, Int.toNat_natCast]


/-! ### Claim theorems -/

set_option maxRecDepth 100000 in
/-- C1: the claim says the report emitted for problem id `p` contains exactly
`r` (here 1) entries, from `p`'s runs only.  Evaluating the embedded driver
with one run per problem id shows the file written for problem id 2 holds the
global accumulator: two entries, the first being problem id 1's run (its
objective rows are tagged `[1, 0]` by `extA`). -/
theorem C1_emitted_report_contains_prior_pid_runs :
    fileContents (driverMain extA ("nsga2") 1).events 2 =
      [[⟨1, [[1, 0]], 0⟩, ⟨1, [[2, 0]], 0⟩]] := by decide

set_option maxRecDepth 100000 in
/-- C2: the claim says the report serialized at the end of a problem id's run
loop is never mutated afterwards.  In the code the serialized object is the
global `experiment_stats` list: the content serialized for problem id 1 is
`[e1]`, and by the next serialization the very same accumulator has grown to
`[e1] ++ [e2]` — a later RunResult was appended to the already-finalized
report (each per-pid file is, however, written exactly once). -/
theorem C2_report_appended_after_serialization :
    fileContents (driverMain extA ("nsga2") 1).events 1 = [[⟨1, [[1, 0]], 0⟩]]
    ∧ fileContents (driverMain extA ("nsga2") 1).events 2 =
        [[⟨1, [[1, 0]], 0⟩] ++ [⟨1, [[2, 0]], 0⟩]] := by decide

set_option maxRecDepth 100000 in
/-- C3: settings resolution returns generation budget 100 for each supported
objective count, a population size that is by construction the number of
generated das-dennis reference directions, and those numbers are 100, 105 and
120 (the simplex-lattice binomial counts) for objective counts 2, 3 and 4. -/
theorem C3_settings_budget_and_popsize :
    getBenchmarkSettings 2 = .ok ((referenceDirections 2 99).length, 100, referenceDirections 2 99)
    ∧ getBenchmarkSettings 3 = .ok ((referenceDirections 3 13).length, 100, referenceDirections 3 13)
    ∧ getBenchmarkSettings 4 = .ok ((referenceDirections 4 7).length, 100, referenceDirections 4 7)
    ∧ (referenceDirections 2 99).length = 100
    ∧ (referenceDirections 3 13).length = 105
    ∧ (referenceDirections 4 7).length = 120
    ∧ (referenceDirections 2 99).length = Nat.choose 100 1
    ∧ (referenceDirections 3 13).length = Nat.choose 15 2
    ∧ (referenceDirections 4 7).length = Nat.choose 10 3 := by
  refine ⟨rfl, rfl, rfl, ?_, ?_, ?_, ?_, ?_, ?_⟩ <;> decide

/-- C4: for any objective count other than 2, 3 or 4, settings resolution
fails with the unsupported-objective-count error, and the run body stops right
there: its whole trace is the problem construction, so in particular no
optimizer is ever built for that problem id. -/
theorem C4_unsupported_objective_fails_before_optimizer
    (ext : ExternalWorld) (moea : String) (pid r : Nat)
    (h2 : ext.nObj pid ≠ 2) (h3 : ext.nObj pid ≠ 3) (h4 : ext.nObj pid ≠ 4) :
    getBenchmarkSettings (ext.nObj pid) = .error .unsupportedObjectiveCount
    ∧ runOne ext moea pid r = ([.problemConstructed pid r], .error .unsupportedObjectiveCount) := by
  have hs : getBenchmarkSettings (ext.nObj pid) = .error .unsupportedObjectiveCount := by
    unfold getBenchmarkSettings
    simp [h2, h3, h4]
  refine ⟨hs, ?_⟩
  unfold runOne
  rw [show (mkProblem ext pid).nObj = ext.nObj pid from rfl, hs]

/-- Witness for C4 at objective count 5 (`extB`). -/
theorem C4_unsupported_objective_fails_before_optimizer_witness :
    (extB.nObj 1 ≠ 2 ∧ extB.nObj 1 ≠ 3 ∧ extB.nObj 1 ≠ 4)
    ∧ (getBenchmarkSettings (extB.nObj 1) = .error .unsupportedObjectiveCount
       ∧ runOne extB ("nsga2") 1 1 = ([.problemConstructed 1 1], .error .unsupportedObjectiveCount)) :=
  ⟨⟨by decide, by decide, by decide⟩,
    C4_unsupported_objective_fails_before_optimizer extB ("nsga2") 1 1
      (by decide) (by decide) (by decide)⟩

set_option maxRecDepth 100000 in
/-- C5 counterexample: with the unknown family `"foo"` the driver does fail
with the unsupported-algorithm error, but contrary to the claim it does NOT
construct nothing first: the first problem instance is constructed and its
settings are resolved before the failure. -/
theorem C5_counterexample_constructs_problem_before_failing :
    (driverMain extA ("foo") 1).error = some .unsupportedAlgorithm
    ∧ Event.problemConstructed 1 1 ∈ (driverMain extA ("foo") 1).events
    ∧ Event.settingsResolved 1 1 ∈ (driverMain extA ("foo") 1).events := by decide

/-- C5 amended: an unknown algorithm family makes the driver fail with the
unsupported-algorithm error at the first run's dispatch, aborting the whole
invocation — no run record is accumulated, no file is written and no
optimizer is built — but the first problem instance is constructed and its
settings resolved before the failure. -/
theorem C5_unknown_family_aborts_whole_invocation
    (ext : ExternalWorld) (moea : String) (runs : Nat)
    (hm : ¬ KnownMoea moea) (hruns : 1 ≤ runs) (ho : GoodObj (ext.nObj 1)) :
    driverMain ext moea runs =
      ⟨[], [.problemConstructed 1 1, .settingsResolved 1 1], some .unsupportedAlgorithm⟩ := by
  obtain ⟨k, rfl⟩ : ∃ k, runs = k + 1 := ⟨runs - 1, by omega⟩
  have h1 : ¬ moea = ("nsga2") := fun h => hm (Or.inl h)
  have h2 : ¬ moea = ("moead") := fun h => hm (Or.inr (Or.inl h))
  have h3 : ¬ moea = ("nsga3") := fun h => hm (Or.inr (Or.inr h))
  have hone : runOne ext moea 1 1 =
      ([.problemConstructed 1 1, .settingsResolved 1 1], .error .unsupportedAlgorithm) := by
    have hobj : (mkProblem ext 1).nObj = ext.nObj 1 := rfl
    unfold runOne
    rcases ho with h | h | h <;>
      (rw [hobj, h]; simp [getBenchmarkSettings, buildAlgorithm, h1, h2, h3])
  have hp : pidsList = 1 :: List.range' 2 8 := rfl
  have hrf : runsFor (k + 1) = 1 :: List.range' 2 k := rfl
  unfold driverMain
  rw [hp]
  simp only [pidsLoop, hrf, runsLoop, hone]
  simp

/-- Witness for the amended C5 at family `"foo"`, one run, `extA`. -/
theorem C5_unknown_family_aborts_whole_invocation_witness :
    (¬ KnownMoea ("foo")) ∧ 1 ≤ 1 ∧ GoodObj (extA.nObj 1)
    ∧ driverMain extA ("foo") 1 =
        ⟨[], [.problemConstructed 1 1, .settingsResolved 1 1], some .unsupportedAlgorithm⟩ :=
  ⟨fun h => by rcases h with h | h | h <;> exact absurd h (by decide),
   le_refl 1, Or.inl rfl,
   C5_unknown_family_aborts_whole_invocation extA ("foo") 1
     (fun h => by rcases h with h | h | h <;> exact absurd h (by decide))
     (le_refl 1) (Or.inl rfl)⟩

/-- C6: the dispatch builds the three families with the source's defaults:
crossover probability 1 and distribution index 30 (20 for the decomposition
family), mutation probability 9/10 and distribution index 20; the
decomposition family gets neighborhood size 20 and neighbor-mating
probability 9/10 and no duplicate elimination, the other two eliminate
duplicates. -/
theorem C6_factory_family_defaults (ps : Nat) (rd : List (List Rat)) :
    buildAlgorithm ("nsga2") ps rd = .ok (nsga2Default ps)
    ∧ buildAlgorithm ("moead") ps rd = .ok (moeadDefault rd)
    ∧ buildAlgorithm ("nsga3") ps rd = .ok (nsga3Default ps rd)
    ∧ (nsga2Default ps).ops = ⟨1, 30, 9/10, 20⟩
    ∧ (nsga2Default ps).eliminateDuplicates = true
    ∧ (moeadDefault rd).ops = ⟨1, 20, 9/10, 20⟩
    ∧ (moeadDefault rd).eliminateDuplicates = false
    ∧ (moeadDefault rd).nNeighbors = some 20
    ∧ (moeadDefault rd).probNeighborMating = some (9/10)
    ∧ (nsga3Default ps rd).ops = ⟨1, 30, 9/10, 20⟩
    ∧ (nsga3Default ps rd).eliminateDuplicates = true :=
  ⟨rfl, rfl, rfl, rfl, rfl, rfl, rfl, rfl, rfl, rfl, rfl⟩

set_option maxRecDepth 100000 in
/-- C7 counterexample: in the end-to-end scenario (all objective counts 2,
family population-based-dominance, two repeats) the population size resolves
to 100, yet with an admissible external optimizer whose final candidate set
has a single element the objective matrix of a run has 1 row, not 100: the
driver does not control the row count of `res.X`. -/
theorem C7_counterexample_objective_matrix_rows :
    getBenchmarkSettings 2 = .ok ((referenceDirections 2 99).length, 100, referenceDirections 2 99)
    ∧ (referenceDirections 2 99).length = 100
    ∧ (driverMain extA ("nsga2") 2).error = none
    ∧ (∃ rs ∈ (driverMain extA ("nsga2") 2).stats, rs.F.length = 1)
    ∧ ¬ (∀ rs ∈ (driverMain extA ("nsga2") 2).stats, rs.F.length = 100) := by
  refine ⟨rfl, by decide, by decide, by decide, by decide⟩

/-- C7 amended: in the scenario the run completes, the report entries are
exactly the per-(pid, run) results, and each entry's objective matrix has one
row per candidate of that run's final candidate set (not necessarily
population-size many) with exactly 2 columns, and a non-negative indicator —
given that the external benchmark evaluates one row of width `n_obj` per
candidate and its hypervolume indicator is non-negative. -/
theorem C7_scenario_objective_matrix_shape (ext : ExternalWorld)
    (hobj : ∀ pid ∈ pidsList, ext.nObj pid = 2)
    (hlen : ∀ pid ∈ pidsList, ∀ r ∈ runsFor 2,
      (ext.benchEval pid (ext.resX pid r) true).length = (ext.resX pid r).length)
    (hrow : ∀ pid ∈ pidsList, ∀ r ∈ runsFor 2,
      ∀ row ∈ ext.benchEval pid (ext.resX pid r) true, row.length = 2)
    (hhv : ∀ pid ∈ pidsList, ∀ r ∈ runsFor 2, 0 ≤ ext.benchHV pid (ext.resX pid r)) :
    (driverMain ext ("nsga2") 2).error = none
    ∧ (driverMain ext ("nsga2") 2).stats = pidsList.flatMap (goodPidStats ext 2)
    ∧ ∀ pid ∈ pidsList, ∀ r ∈ runsFor 2,
        (goodRunStats ext pid r).run = r
        ∧ (goodRunStats ext pid r).F.length = (ext.resX pid r).length
        ∧ (∀ row ∈ (goodRunStats ext pid r).F, row.length = 2)
        ∧ 0 ≤ (goodRunStats ext pid r).HV := by
  rw [driverMain_good ext ("nsga2") 2 (Or.inl rfl) (fun p hp => Or.inl (hobj p hp))]
  refine ⟨rfl, ?_, ?_⟩
  · rw [show ({ stats := goodStatsFrom ext 2 pidsList [], events := goodEventsFrom ext 2 pidsList [], error := none } : DriverResult).stats = goodStatsFrom ext 2 pidsList [] from rfl]
    rw [goodStatsFrom_eq ext 2 pidsList []]
    simp
  · intro pid hpid r hr
    exact ⟨rfl, hlen pid hpid r hr, hrow pid hpid r hr, hhv pid hpid r hr⟩

set_option maxRecDepth 100000 in
/-- Witness for the amended C7 at `extA`. -/
theorem C7_scenario_objective_matrix_shape_witness :
    (∀ pid ∈ pidsList, extA.nObj pid = 2)
    ∧ (∀ pid ∈ pidsList, ∀ r ∈ runsFor 2,
        (extA.benchEval pid (extA.resX pid r) true).length = (extA.resX pid r).length)
    ∧ (∀ pid ∈ pidsList, ∀ r ∈ runsFor 2,
        ∀ row ∈ extA.benchEval pid (extA.resX pid r) true, row.length = 2)
    ∧ (∀ pid ∈ pidsList, ∀ r ∈ runsFor 2, 0 ≤ extA.benchHV pid (extA.resX pid r))
    ∧ ((driverMain extA ("nsga2") 2).error = none
       ∧ (driverMain extA ("nsga2") 2).stats = pidsList.flatMap (goodPidStats extA 2)
       ∧ ∀ pid ∈ pidsList, ∀ r ∈ runsFor 2,
           (goodRunStats extA pid r).run = r
           ∧ (goodRunStats extA pid r).F.length = (extA.resX pid r).length
           ∧ (∀ row ∈ (goodRunStats extA pid r).F, row.length = 2)
           ∧ 0 ≤ (goodRunStats extA pid r).HV) :=
  ⟨by decide, by decide, by decide, by decide,
   C7_scenario_objective_matrix_shape extA (by decide) (by decide) (by decide) (by decide)⟩

set_option maxRecDepth 100000 in
/-- C8 counterexample: with two repeats, the driver emits TWO
problem-construction events and TWO settings-resolution events for problem
id 1 — the problem instance is instantiated and settings are resolved once
per repeat, not exactly once per problem id as claimed. -/
theorem C8_counterexample_problem_instantiated_per_repeat :
    ((driverMain extA ("nsga2") 2).events.filter (isProblemFor 1)).length = 2
    ∧ ¬ ((driverMain extA ("nsga2") 2).events.filter (isProblemFor 1)).length = 1
    ∧ ((driverMain extA ("nsga2") 2).events.filter (isSettingsFor 1)).length = 2 := by decide

/-- C8 amended: for every problem id 1..9 and repeat 1..runs, the completed
driver trace contains exactly one problem construction, exactly one settings
resolution and exactly one optimizer construction for that (pid, repeat) pair:
everything, including the problem instance and settings, is rebuilt freshly
on every repeat, and in particular no optimizer is reused across repeats. -/
theorem C8_per_repeat_instantiation_counts
    (ext : ExternalWorld) (moea : String) (runs pid r : Nat)
    (hm : KnownMoea moea) (ho : ∀ p ∈ pidsList, GoodObj (ext.nObj p))
    (hpid1 : 1 ≤ pid) (hpid9 : pid ≤ 9) (hr1 : 1 ≤ r) (hrr : r ≤ runs) :
    (driverMain ext moea runs).error = none
    ∧ countE (.problemConstructed pid r) (driverMain ext moea runs).events = 1
    ∧ countE (.settingsResolved pid r) (driverMain ext moea runs).events = 1
    ∧ countE (.optimizerBuilt pid r) (driverMain ext moea runs).events = 1 := by
  rw [driverMain_good ext moea runs hm ho]
  have hN9 : countN pid pidsList = 1 := countN_range'_one 9 1 pid hpid1 (by omega)
  have hNr : countN r (runsFor runs) = 1 := countN_range'_one runs 1 r hr1 (by omega)
  refine ⟨rfl, ?_, ?_, ?_⟩
  · rw [show ({ stats := goodStatsFrom ext runs pidsList [], events := goodEventsFrom ext runs pidsList [], error := none } : DriverResult).events = goodEventsFrom ext runs pidsList [] from rfl]
    rw [countE_goodEventsFrom ext runs _ pid r (fun pid' r' => countE_good_pc ext pid' r' pid r) (fun p c => by simp) pidsList []]
    rw [hN9, hNr]
  · rw [show ({ stats := goodStatsFrom ext runs pidsList [], events := goodEventsFrom ext runs pidsList [], error := none } : DriverResult).events = goodEventsFrom ext runs pidsList [] from rfl]
    rw [countE_goodEventsFrom ext runs _ pid r (fun pid' r' => countE_good_sr ext pid' r' pid r) (fun p c => by simp) pidsList []]
    rw [hN9, hNr]
  · rw [show ({ stats := goodStatsFrom ext runs pidsList [], events := goodEventsFrom ext runs pidsList [], error := none } : DriverResult).events = goodEventsFrom ext runs pidsList [] from rfl]
    rw [countE_goodEventsFrom ext runs _ pid r (fun pid' r' => countE_good_ob ext pid' r' pid r) (fun p c => by simp) pidsList []]
    rw [hN9, hNr]

set_option maxRecDepth 100000 in
/-- Witness for the amended C8 at `extA`, family nsga2, two repeats,
problem id 1, repeat 2. -/
theorem C8_per_repeat_instantiation_counts_witness :
    KnownMoea ("nsga2") ∧ (∀ p ∈ pidsList, GoodObj (extA.nObj p))
    ∧ 1 ≤ 1 ∧ 1 ≤ 9 ∧ 1 ≤ 2 ∧ 2 ≤ 2
    ∧ ((driverMain extA ("nsga2") 2).error = none
       ∧ countE (.problemConstructed 1 2) (driverMain extA ("nsga2") 2).events = 1
       ∧ countE (.settingsResolved 1 2) (driverMain extA ("nsga2") 2).events = 1
       ∧ countE (.optimizerBuilt 1 2) (driverMain extA ("nsga2") 2).events = 1) :=
  ⟨Or.inl rfl, fun p _ => Or.inl rfl, le_refl 1, by decide, by decide, le_refl 2,
   C8_per_repeat_instantiation_counts extA ("nsga2") 2 1 2 (Or.inl rfl) (fun p _ => Or.inl rfl)
     (le_refl 1) (by decide) (by decide) (le_refl 2)⟩

/-- C9: every evaluation-call event in any driver trace — whatever the
external world, the family and the repeat count, and including the calls the
external search loop makes through the problem's evaluation hook — carries
the authoritative flag `true`; and the problem's evaluation hook forwards
every batch to the benchmark with `true_eval = True`. -/
theorem C9_all_evaluations_authoritative (ext : ExternalWorld) (moea : String) (runs : Nat) :
    ((driverMain ext moea runs).events).all flagOk = true
    ∧ ∀ (pid : Nat) (x : List (List Int)),
        problemEvaluate ext pid x = (ext.benchEval pid x true, .evalCall pid true) := by
  refine ⟨?_, fun pid x => rfl⟩
  exact flags_pidsLoop ext moea runs pidsList [] [] rfl

/-- C10: serializing an experiment report to the structured persisted format
and re-loading it restores the report exactly — in particular every objective
matrix entry and every indicator value. -/
theorem C10_report_serialization_roundtrip (report : List RunStats) :
    decodeReport (encodeReport report) = some report :=
  decodeListWith_map decodeRunStats encodeRunStats decodeRunStats_encode report

end In1KMOP
